import Mathlib

set_option maxHeartbeats 1000000

/- Verification of the translation and state-reconciliation layer of the
KSGOLD gateway (vnpy_ksgold/gateway/ksgold_gateway.py).  The gateway's
handlers are embedded shallowly: each Python method becomes a Lean
function on an explicit state record, Python dicts become functions into
Option, the module-level symbol/identifier caches live inside the trading
state record, an exception raised by a direct dict index is modelled as
an Except.error carrying the state at the raise point, and the calls to
the vendor API plus the events emitted to the host platform are recorded
in trace lists. -/

/-- Exchange enumeration.  The source uses Exchange.SGE only
(exchanges = [Exchange.SGE]; every contract and position is built with
Exchange.SGE), so the embedding declares just that constructor. -/
inductive Exchange
  | SGE
deriving DecidableEq

/-- Normalized direction enumeration from vnpy.trader.constant.Direction. -/
inductive Direction
  | LONG
  | SHORT
  | NET
deriving DecidableEq

/-- Normalized offset enumeration from vnpy.trader.constant.Offset. -/
inductive Offset
  | NONE
  | OPEN
  | CLOSE
  | CLOSETODAY
  | CLOSEYESTERDAY
deriving DecidableEq

/-- Normalized order status enumeration from vnpy.trader.constant.Status. -/
inductive Status
  | SUBMITTING
  | NOTTRADED
  | PARTTRADED
  | ALLTRADED
  | CANCELLED
  | REJECTED
deriving DecidableEq, Fintype

/-- Vendor direction codes KS_BUY / KS_SELL, imported by the gateway from
vnpy_ksgold.api.  Modelled from the spec: the api binding module is not in
the source tree; the spec describes a buy/sell direction pair (2 states),
so the two constants are modelled as the two distinct values of this type. -/
inductive KsDirCode
  | KS_BUY
  | KS_SELL
deriving DecidableEq

/-- Vendor offset codes.  KS_P_OPEN / KS_P_OFFSET are imported by the
gateway from vnpy_ksgold.api; 48 is the additional literal key patched
into OFFSET_KSGOLD2VT at module load.  Modelled from the spec: the api
binding module is not in the source tree; the spec describes two distinct
primary codes (open / close) plus one distinct legacy alias code, so the
three dict keys are modelled as the three distinct values of this type. -/
inductive KsOffsetCode
  | KS_P_OPEN
  | KS_P_OFFSET
  | code48
deriving DecidableEq

/-- Vendor order status codes KS_Entrust_*, imported by the gateway from
vnpy_ksgold.api.  Modelled from the spec: the api binding module is not in
the source tree; the spec describes 9 distinct vendor order states, so the
nine constants are modelled as the nine distinct values of this type. -/
inductive KsStatusCode
  | KS_Entrust_Sending
  | KS_Entrust_Waiting
  | KS_Entrust_Error
  | KS_Entrust_In
  | KS_Entrust_Part_Done
  | KS_Entrust_All_Done
  | KS_Entrust_All_Cancel
  | KS_Entrust_Part_Done_Cancel
  | KS_Entrust_Wait_Cancel
deriving DecidableEq, Fintype

/-- STATUS_KSGOLD2VT: the vendor-to-normalized order status dict, written
out entry by entry exactly as in the source.  The Python dict is total on
the nine KS_Entrust_* keys, so it is embedded as a total function. -/
def STATUS_KSGOLD2VT : KsStatusCode → Status
  | .KS_Entrust_Sending => .SUBMITTING
  | .KS_Entrust_Waiting => .NOTTRADED
  | .KS_Entrust_Error => .REJECTED
  | .KS_Entrust_In => .NOTTRADED
  | .KS_Entrust_Part_Done => .PARTTRADED
  | .KS_Entrust_All_Done => .ALLTRADED
  | .KS_Entrust_All_Cancel => .CANCELLED
  | .KS_Entrust_Part_Done_Cancel => .CANCELLED
  | .KS_Entrust_Wait_Cancel => .SUBMITTING

/-- DIRECTION_VT2KSGOLD: {Direction.LONG: KS_BUY, Direction.SHORT: KS_SELL}.
Option-valued because Direction.NET is not a key (the source reads this
dict with .get and a default in send_order). -/
def DIRECTION_VT2KSGOLD : Direction → Option KsDirCode
  | .LONG => some .KS_BUY
  | .SHORT => some .KS_SELL
  | .NET => none

/-- DIRECTION_KSGOLD2VT: the inversion {v: k for k, v in
DIRECTION_VT2KSGOLD.items()}; total on both vendor codes. -/
def DIRECTION_KSGOLD2VT : KsDirCode → Direction
  | .KS_BUY => .LONG
  | .KS_SELL => .SHORT

/-- OFFSET_VT2KSGOLD: {Offset.OPEN: KS_P_OPEN, Offset.CLOSE: KS_P_OFFSET}.
Option-valued: the other three normalized offsets are not keys. -/
def OFFSET_VT2KSGOLD : Offset → Option KsOffsetCode
  | .OPEN => some .KS_P_OPEN
  | .CLOSE => some .KS_P_OFFSET
  | _ => none

/-- OFFSET_KSGOLD2VT: the inversion of OFFSET_VT2KSGOLD followed by the
module-load patch OFFSET_KSGOLD2VT[48] = Offset.OPEN.  Total on the three
keys the final dict holds. -/
def OFFSET_KSGOLD2VT : KsOffsetCode → Offset
  | .KS_P_OPEN => .OPEN
  | .KS_P_OFFSET => .CLOSE
  | .code48 => .OPEN

/-- MAX_FLOAT = sys.float_info.max.  Prices are modelled as exact
rationals; the IEEE-754 double maximum is exactly (2 - 2^(-52)) * 2^1023,
that is 2^1024 - 2^971. -/
def MAX_FLOAT : Rat := 2 ^ 1024 - 2 ^ 971

/-- adjust_price: rewrite the vendor sentinel MAX_FLOAT to 0, pass every
other value through unchanged. -/
def adjust_price (price : Rat) : Rat :=
  if price = MAX_FLOAT then 0 else price

/-- Python dict lookup, embedded as a function into Option. -/
def emptyDict {κ ν : Type} : κ → Option ν := fun _ => none

/-- Python dict item assignment d[k] = v. -/
def dictUpdate {κ ν : Type} [DecidableEq κ] (m : κ → Option ν) (k : κ) (v : ν) :
    κ → Option ν :=
  fun k' => if k' = k then some v else m k'

/-- Payload of an onRtnOrder callback: the fields the handler reads. -/
structure OrderPayload where
  InstID : String
  FrontID : Nat
  SessionID : Nat
  OrderRef : String
  LocalOrderNo : Nat
  OrderNo : String
  BuyOrSell : KsDirCode
  OffsetFlag : KsOffsetCode
  StatusCode : KsStatusCode
  Price : Rat
  Amount : Rat
  MatchQty : Rat
  EntrustTime : String
deriving DecidableEq

/-- Payload of an onRtnTrade callback: the fields the handler reads.
Note the source reads the key "OffSetFlag" (capital S) on trades. -/
structure TradePayload where
  InstID : String
  OrderNo : String
  MatchNo : String
  BuyOrSell : KsDirCode
  OffSetFlag : KsOffsetCode
  Price : Rat
  Volume : Rat
  MatchTime : String
deriving DecidableEq

/-- Payload of an onRspQryInstrument callback: the fields the handler reads. -/
structure InstrumentPayload where
  InstID : String
  Name : String
  Unit : Rat
  Tick : Rat
  MarketID : Nat
deriving DecidableEq

/-- Normalized order event as emitted through gateway.on_order.  The
datetime field composed from the wall clock in the source is kept as the
raw payload time string (none for the speculative order emitted by
send_order, whose OrderData carries no datetime). -/
structure OrderData where
  symbol : String
  exchange : Exchange
  orderid : String
  direction : Direction
  offset : Offset
  price : Rat
  volume : Rat
  traded : Rat
  status : Status
  time : Option String
deriving DecidableEq

/-- Normalized trade event as emitted through gateway.on_trade. -/
structure TradeData where
  symbol : String
  exchange : Exchange
  orderid : String
  tradeid : String
  direction : Direction
  offset : Offset
  price : Rat
  volume : Rat
  time : String
deriving DecidableEq

/-- Normalized contract event as emitted through gateway.on_contract. -/
structure ContractData where
  symbol : String
  exchange : Exchange
  name : String
  size : Rat
  pricetick : Rat
deriving DecidableEq

/-- An event pushed to the host platform's event bus. -/
inductive GwEvent
  | onOrder (o : OrderData)
  | onTrade (t : TradeData)
  | onContract (c : ContractData)
deriving DecidableEq

/-- Vendor order-insert request dict built by send_order. -/
structure KsOrderReq where
  SeatID : Nat
  ClientID : String
  TradeCode : String
  InstID : String
  BuyOrSell : Option KsDirCode
  OffsetFlag : Option KsOffsetCode
  Amount : Int
  Price : Rat
  MarketID : Nat
  OrderRef : String
  SessionID : Nat
deriving DecidableEq

/-- A synchronous request issued to the vendor trading API. -/
inductive VendorCall
  | reqUserLogin
  | reqQryInstrument
  | reqOrderInsert (r : KsOrderReq)
  | reqOrderAction (localOrderNo : Nat)
  | reqQryTradingAccount
  | reqQryInvestorPosition
deriving DecidableEq

/-- Normalized order request passed to send_order. -/
structure OrderRequest where
  symbol : String
  exchange : Exchange
  direction : Direction
  offset : Offset
  price : Rat
  volume : Rat
deriving DecidableEq

/-- Normalized cancel request passed to cancel_order. -/
structure CancelRequest where
  orderid : String
  symbol : String
  exchange : Exchange
deriving DecidableEq

/-- Login response data read by the success branch of onRspUserLogin. -/
structure LoginData where
  FrontID : Nat
  SessionID : Nat
  SeatNo : Nat
  TradeCode : String
deriving DecidableEq

/-- State of the trading side (KsgoldTdApi instance fields together with
the module-level symbol/identifier caches it reads and writes), plus two
trace lists: the vendor API calls issued and the events emitted to the
host platform. -/
@[ext]
structure TdState where
  symbol_exchange_map : String → Option Exchange
  symbol_name_map : String → Option String
  symbol_size_map : String → Option Rat
  symbol_market_map : String → Option Nat
  localid_orderid_map : Nat → Option String
  orderid_localid_map : String → Option Nat
  reqid : Nat
  order_ref : Nat
  connect_status : Bool
  login_status : Bool
  login_failed : Bool
  userid : String
  trade_code : String
  login_type : Nat
  seat_no : Nat
  frontid : Nat
  sessionid : Nat
  order_data : List OrderPayload
  trade_data : List TradePayload
  sysid_orderid_map : String → Option String
  emitted : List GwEvent
  calls : List VendorCall

/-- Trading state as built by KsgoldTdApi.__init__ with all module-level
caches empty. -/
def initialTdState : TdState where
  symbol_exchange_map := emptyDict
  symbol_name_map := emptyDict
  symbol_size_map := emptyDict
  symbol_market_map := emptyDict
  localid_orderid_map := emptyDict
  orderid_localid_map := emptyDict
  reqid := 0
  order_ref := 0
  connect_status := false
  login_status := false
  login_failed := false
  userid := ""
  trade_code := ""
  login_type := 0
  seat_no := 0
  frontid := 0
  sessionid := 0
  order_data := []
  trade_data := []
  sysid_orderid_map := emptyDict
  emitted := []
  calls := []

/-- The composite local order id f-string frontid_sessionid_order_ref. -/
def mkOrderId (frontid sessionid : Nat) (order_ref : String) : String :=
  toString frontid ++ "_" ++ toString sessionid ++ "_" ++ order_ref

/-- The local order id an onRtnOrder payload resolves to. -/
def payloadOrderId (p : OrderPayload) : String :=
  mkOrderId p.FrontID p.SessionID p.OrderRef

/-- KsgoldTdApi.onRtnOrder.  Unknown symbol: append the raw payload to the
order_data pending buffer and return.  Known symbol: write the
(orderid, LocalOrderNo) pair into both identifier maps, emit the
normalized order event, then register OrderNo in sysid_orderid_map.
All three translation dicts are indexed directly in the source; they are
total on the vendor code types, so this handler is total. -/
def onRtnOrder (s : TdState) (data : OrderPayload) : TdState :=
  match s.symbol_exchange_map data.InstID with
  | none => { s with order_data := s.order_data ++ [data] }
  | some exchange =>
    let orderid := payloadOrderId data
    let localid := data.LocalOrderNo
    { s with
      orderid_localid_map := dictUpdate s.orderid_localid_map orderid localid
      localid_orderid_map := dictUpdate s.localid_orderid_map localid orderid
      emitted := s.emitted ++ [GwEvent.onOrder {
        symbol := data.InstID
        exchange := exchange
        orderid := orderid
        direction := DIRECTION_KSGOLD2VT data.BuyOrSell
        offset := OFFSET_KSGOLD2VT data.OffsetFlag
        price := data.Price
        volume := data.Amount
        traded := data.MatchQty
        status := STATUS_KSGOLD2VT data.StatusCode
        time := some data.EntrustTime }]
      sysid_orderid_map := dictUpdate s.sysid_orderid_map data.OrderNo orderid }

/-- KsgoldTdApi.onRtnTrade.  Unknown symbol: append the raw payload to the
trade_data pending buffer.  Known symbol: resolve the system order number
through sysid_orderid_map — a direct dict index in the source, so a
missing key raises KeyError, modelled as Except.error carrying the state
at the raise point — then emit the normalized trade event. -/
def onRtnTrade (s : TdState) (data : TradePayload) : Except TdState TdState :=
  match s.symbol_exchange_map data.InstID with
  | none => .ok { s with trade_data := s.trade_data ++ [data] }
  | some exchange =>
    match s.sysid_orderid_map data.OrderNo with
    | none => .error s
    | some orderid =>
      .ok { s with emitted := s.emitted ++ [GwEvent.onTrade {
        symbol := data.InstID
        exchange := exchange
        orderid := orderid
        tradeid := data.MatchNo
        direction := DIRECTION_KSGOLD2VT data.BuyOrSell
        offset := OFFSET_KSGOLD2VT data.OffSetFlag
        price := data.Price
        volume := data.Volume
        time := data.MatchTime }] }

/-- The non-replay part of KsgoldTdApi.onRspQryInstrument: build the
ContractData (always with Exchange.SGE), emit it, and register the four
symbol reference caches. -/
def registerContract (s : TdState) (data : InstrumentPayload) : TdState :=
  { s with
    emitted := s.emitted ++ [GwEvent.onContract {
      symbol := data.InstID
      exchange := .SGE
      name := data.Name
      size := data.Unit
      pricetick := data.Tick }]
    symbol_exchange_map := dictUpdate s.symbol_exchange_map data.InstID .SGE
    symbol_name_map := dictUpdate s.symbol_name_map data.InstID data.Name
    symbol_size_map := dictUpdate s.symbol_size_map data.InstID data.Unit
    symbol_market_map := dictUpdate s.symbol_market_map data.InstID data.MarketID }

/-- The terminal-page drain of KsgoldTdApi.onRspQryInstrument: replay the
order buffer through onRtnOrder and clear it, then replay the trade
buffer through onRtnTrade and clear it.  The source iterates the buffer
lists with a for loop; the embedding folds over the snapshot taken at
loop entry, which matches the source on every run in which no replayed
payload is re-buffered (a re-buffered payload would be appended to the
list being iterated and picked up again by the Python iterator).  The
Except.map models a KeyError raised by a replayed trade propagating
before trade_data.clear() runs, leaving the trade buffer in place. -/
def drainBuffers (t : TdState) : Except TdState TdState :=
  let s2 := t.order_data.foldl onRtnOrder t
  let s3 : TdState := { s2 with order_data := [] }
  (s3.trade_data.foldlM onRtnTrade s3).map (fun s4 => { s4 with trade_data := [] })

/-- KsgoldTdApi.onRspQryInstrument.  Register the contract; on the
terminal page (last = true) drain and clear both pending buffers. -/
def onRspQryInstrument (s : TdState) (data : InstrumentPayload) (last : Bool) :
    Except TdState TdState :=
  let s1 := registerContract s data
  if last then drainBuffers s1 else .ok s1

/-- OrderRequest.create_order_data from vnpy.trader.object: the
speculative OrderData for a just-submitted request (status defaults to
Status.SUBMITTING, nothing traded, no datetime). -/
def OrderRequest.create_order_data (req : OrderRequest) (orderid : String) : OrderData :=
  { symbol := req.symbol
    exchange := req.exchange
    orderid := orderid
    direction := req.direction
    offset := req.offset
    price := req.price
    volume := req.volume
    traded := 0
    status := .SUBMITTING
    time := none }

/-- KsgoldTdApi.send_order.  Untranslatable offset: write a log line (not
traced) and return "" with the state untouched.  Otherwise increment
order_ref, build the vendor request dict — the symbol_market_map index is
direct, so an unknown symbol raises KeyError there, after the order_ref
increment but before any vendor call — issue reqOrderInsert, emit the
speculative order event, and return its vt_orderid
(gateway_name "KSGOLD" dot orderid). -/
def send_order (s : TdState) (req : OrderRequest) : Except TdState (TdState × String) :=
  match OFFSET_VT2KSGOLD req.offset with
  | none => .ok (s, "")
  | some offsetCode =>
    let s := { s with order_ref := s.order_ref + 1 }
    match s.symbol_market_map req.symbol with
    | none => .error s
    | some marketID =>
      let ksgold_req : KsOrderReq :=
        { SeatID := s.seat_no
          ClientID := s.userid
          TradeCode := s.trade_code
          InstID := req.symbol
          BuyOrSell := DIRECTION_VT2KSGOLD req.direction
          OffsetFlag := some offsetCode
          Amount := req.volume.floor
          Price := req.price
          MarketID := marketID
          OrderRef := toString s.order_ref
          SessionID := s.sessionid }
      let s := { s with
        reqid := s.reqid + 1
        calls := s.calls ++ [VendorCall.reqOrderInsert ksgold_req] }
      let orderid := mkOrderId s.frontid s.sessionid (toString s.order_ref)
      let order := OrderRequest.create_order_data req orderid
      .ok ({ s with emitted := s.emitted ++ [GwEvent.onOrder order] },
           "KSGOLD." ++ orderid)

/-- KsgoldTdApi.cancel_order.  The source indexes orderid_localid_map
directly; a missing orderid raises KeyError before any vendor call,
modelled as Except.error on the unchanged state.  On success it issues
reqOrderAction with the resolved vendor local order number. -/
def cancel_order (s : TdState) (req : CancelRequest) : Except TdState TdState :=
  match s.orderid_localid_map req.orderid with
  | none => .error s
  | some localid =>
    .ok { s with
      reqid := s.reqid + 1
      calls := s.calls ++ [VendorCall.reqOrderAction localid] }

/-- KsgoldTdApi.login: return immediately when login_failed is set,
otherwise issue reqUserLogin. -/
def login (s : TdState) : TdState :=
  if s.login_failed then s
  else { s with reqid := s.reqid + 1, calls := s.calls ++ [VendorCall.reqUserLogin] }

/-- The instrument-query retry loop in the success branch of
onRspUserLogin: each attempt bumps reqid and issues reqQryInstrument; the
loop runs until the vendor accepts the call.  The number of attempts is
determined by the vendor's return codes, supplied here as the argument. -/
def queryLoop (s : TdState) : Nat → TdState
  | 0 => s
  | k + 1 =>
    queryLoop
      { s with reqid := s.reqid + 1, calls := s.calls ++ [VendorCall.reqQryInstrument] }
      k

/-- KsgoldTdApi.onRspUserLogin.  Zero ErrorID: store the session identity
fields, set login_status, and run the instrument-query retry loop
(retries failed attempts before the accepted one, hence retries + 1
reqQryInstrument calls).  Nonzero ErrorID: set login_failed and write an
error log line. -/
def onRspUserLogin (s : TdState) (data : LoginData) (errorID : Nat) (retries : Nat) :
    TdState :=
  if errorID = 0 then
    queryLoop
      { s with
        frontid := data.FrontID
        sessionid := data.SessionID
        seat_no := data.SeatNo
        trade_code := data.TradeCode
        login_status := true }
      (retries + 1)
  else
    { s with login_failed := true }

/-- KsgoldTdApi.onFrontConnected: log and call login. -/
def onFrontConnected (s : TdState) : TdState :=
  login s

/-- KsgoldTdApi.onFrontDisconnected: clear login_status. -/
def onFrontDisconnected (s : TdState) : TdState :=
  { s with login_status := false }

/-- The operations of the trading session that can touch the login state.
reqUserLogin is issued only inside KsgoldTdApi.login, and login is called
only directly and from onFrontConnected, so these four operations cover
every producer of a login request. -/
inductive TdOp
  | login
  | frontConnected
  | frontDisconnected
  | rspUserLogin (data : LoginData) (errorID : Nat) (retries : Nat)

/-- One step of the login-related operations. -/
def tdOpStep (s : TdState) : TdOp → TdState
  | .login => login s
  | .frontConnected => onFrontConnected s
  | .frontDisconnected => onFrontDisconnected s
  | .rspUserLogin d e r => onRspUserLogin s d e r

/-- Run a sequence of login-related operations. -/
def runOps (s : TdState) (ops : List TdOp) : TdState :=
  ops.foldl tdOpStep s

/-- Number of reqUserLogin requests in a vendor call trace. -/
def countUserLogin (cs : List VendorCall) : Nat :=
  cs.countP (fun c => c = VendorCall.reqUserLogin)

/-- The two periodic query functions of the polling scheduler. -/
inductive QueryFn
  | query_account
  | query_position
deriving DecidableEq

/-- State owned by KsgoldGateway for the polling scheduler: the tick
counter, the rotation list, and a trace of the query functions invoked. -/
@[ext]
structure GwPollState where
  count : Nat
  query_functions : List QueryFn
  invoked : List QueryFn
deriving DecidableEq

/-- KsgoldGateway.init_query: counter 0, rotation [query_account,
query_position], nothing invoked yet. -/
def init_query : GwPollState :=
  { count := 0, query_functions := [.query_account, .query_position], invoked := [] }

/-- KsgoldGateway.process_timer_event: bump the counter; below 2, return;
otherwise reset it, pop the head of the rotation, invoke it, and append
it at the tail.  (Python's pop(0) on an empty rotation would raise; that
state is unreachable from init_query, and the empty branch is never
exercised by the theorems below.) -/
def process_timer_event (s : GwPollState) : GwPollState :=
  let c := s.count + 1
  if c < 2 then { s with count := c }
  else
    match s.query_functions with
    | [] => { s with count := 0 }
    | f :: rest =>
      { count := 0, query_functions := rest ++ [f], invoked := s.invoked ++ [f] }

/-- The query invoked on the k-th firing (0-based): account queries on
even firings, position queries on odd ones. -/
def expectedInvoked (k : Nat) : List QueryFn :=
  (List.range k).map (fun i => if i % 2 = 0 then .query_account else .query_position)

/-- The rotation list after k firings. -/
def expectedRotation (k : Nat) : List QueryFn :=
  if k % 2 = 0 then [.query_account, .query_position]
  else [.query_position, .query_account]

/-- An order or trade report delivered by the vendor. -/
inductive RtnMsg
  | ord (p : OrderPayload)
  | trd (q : TradePayload)
deriving DecidableEq

/-- The symbol a report carries. -/
def msgSymbol : RtnMsg → String
  | .ord p => p.InstID
  | .trd q => q.InstID

/-- Deliver one report to the matching handler. -/
def deliverRtn (s : TdState) : RtnMsg → Except TdState TdState
  | .ord p => .ok (onRtnOrder s p)
  | .trd q => onRtnTrade s q

/-- Deliver a sequence of reports in order. -/
def deliverAll (s : TdState) (ms : List RtnMsg) : Except TdState TdState :=
  ms.foldlM deliverRtn s

/-- The order payloads of a report sequence, in order. -/
def ordersOf (ms : List RtnMsg) : List OrderPayload :=
  ms.filterMap (fun m => match m with | .ord p => some p | .trd _ => none)

/-- The trade payloads of a report sequence, in order. -/
def tradesOf (ms : List RtnMsg) : List TradePayload :=
  ms.filterMap (fun m => match m with | .ord _ => none | .trd q => some q)

/-- The order event onRtnOrder emits for a payload whose symbol resolves
under the given symbol map. -/
def orderEvOf (exm : String → Option Exchange) (p : OrderPayload) : GwEvent :=
  .onOrder {
    symbol := p.InstID
    exchange := (exm p.InstID).getD .SGE
    orderid := payloadOrderId p
    direction := DIRECTION_KSGOLD2VT p.BuyOrSell
    offset := OFFSET_KSGOLD2VT p.OffsetFlag
    price := p.Price
    volume := p.Amount
    traded := p.MatchQty
    status := STATUS_KSGOLD2VT p.StatusCode
    time := some p.EntrustTime }

/-- The trade event onRtnTrade emits for a payload whose symbol and system
order number resolve under the given maps. -/
def tradeEvOf (exm : String → Option Exchange) (sys : String → Option String)
    (q : TradePayload) : GwEvent :=
  .onTrade {
    symbol := q.InstID
    exchange := (exm q.InstID).getD .SGE
    orderid := (sys q.OrderNo).getD ""
    tradeid := q.MatchNo
    direction := DIRECTION_KSGOLD2VT q.BuyOrSell
    offset := OFFSET_KSGOLD2VT q.OffSetFlag
    price := q.Price
    volume := q.Volume
    time := q.MatchTime }

/-- The contract event onRspQryInstrument emits for a catalog page. -/
def contractEvOf (c : InstrumentPayload) : GwEvent :=
  .onContract {
    symbol := c.InstID
    exchange := .SGE
    name := c.Name
    size := c.Unit
    pricetick := c.Tick }

/-- The symbol-to-exchange map after a list of catalog pages has been
registered on top of a given map. -/
def catalogMap (exm : String → Option Exchange) (cs : List InstrumentPayload) :
    String → Option Exchange :=
  cs.foldl (fun m c => dictUpdate m c.InstID .SGE) exm

/-- Register a list of catalog pages (the non-replay part of the handler). -/
def registerAll (s : TdState) (cs : List InstrumentPayload) : TdState :=
  cs.foldl registerContract s

/-- sysid_orderid_map after replaying a list of order payloads. -/
def sysExtend (sys : String → Option String) (ps : List OrderPayload) :
    String → Option String :=
  ps.foldl (fun m p => dictUpdate m p.OrderNo (payloadOrderId p)) sys

/-- orderid_localid_map after replaying a list of order payloads. -/
def olExtend (m : String → Option Nat) (ps : List OrderPayload) :
    String → Option Nat :=
  ps.foldl (fun m p => dictUpdate m (payloadOrderId p) p.LocalOrderNo) m

/-- localid_orderid_map after replaying a list of order payloads. -/
def loExtend (m : Nat → Option String) (ps : List OrderPayload) :
    Nat → Option String :=
  ps.foldl (fun m p => dictUpdate m p.LocalOrderNo (payloadOrderId p)) m

/-- Reference event stream for immediate (unbuffered) processing of a
report sequence: every symbol must resolve in the fixed symbol map and
every trade's system order number must resolve in the threaded
sysid_orderid_map; returns none when a report would be buffered or would
raise.  Used to state that post-load reports are processed strictly in
arrival order, one event each. -/
def specEvents (exm : String → Option Exchange) :
    (String → Option String) → List RtnMsg → Option (List GwEvent)
  | _, [] => some []
  | sys, .ord p :: ms =>
    match exm p.InstID with
    | none => none
    | some _ =>
      (specEvents exm (dictUpdate sys p.OrderNo (payloadOrderId p)) ms).map
        (fun evs => orderEvOf exm p :: evs)
  | sys, .trd q :: ms =>
    match exm q.InstID, sys q.OrderNo with
    | some _, some _ => (specEvents exm sys ms).map (fun evs => tradeEvOf exm sys q :: evs)
    | _, _ => none

/-- Run a list of onRtnOrder callbacks. -/
def runOrders (s : TdState) (ds : List OrderPayload) : TdState :=
  ds.foldl onRtnOrder s

/-- The (orderid, LocalOrderNo) pairs written by the payloads of a run
that reach the mapping-update step, that is whose symbol is known
(onRtnOrder never changes symbol_exchange_map, so the map of the starting
state decides this for the whole run). -/
def processedPairs (s : TdState) (ds : List OrderPayload) : List (String × Nat) :=
  (ds.filter (fun p => (s.symbol_exchange_map p.InstID).isSome)).map
    (fun p => (payloadOrderId p, p.LocalOrderNo))

/-- The two identifier maps are mutual inverses. -/
def MutualInverse (s : TdState) : Prop :=
  ∀ oid lid, s.orderid_localid_map oid = some lid ↔ s.localid_orderid_map lid = some oid

/-- A pair list is functional in both coordinates: equal orderids carry
equal localids and equal localids carry equal orderids. -/
def TwoWayFunctional (L : List (String × Nat)) : Prop :=
  ∀ a ∈ L, ∀ b ∈ L, (a.1 = b.1 → a.2 = b.2) ∧ (a.2 = b.2 → a.1 = b.1)

/-- Both identifier maps hold only pairs of L and agree with each other. -/
def MapsBounded (L : List (String × Nat)) (s : TdState) : Prop :=
  (∀ oid lid, s.orderid_localid_map oid = some lid → (oid, lid) ∈ L) ∧
  (∀ oid lid, s.localid_orderid_map lid = some oid → (oid, lid) ∈ L) ∧
  (∀ oid lid, s.orderid_localid_map oid = some lid ↔ s.localid_orderid_map lid = some oid)

/-- Projection keeping order and trade events, dropping contract events. -/
def notOnContract : GwEvent → Bool
  | .onContract _ => false
  | _ => true

/-- Whether an Except value is a success. -/
def exceptIsOk : Except TdState TdState → Bool
  | .ok _ => true
  | .error _ => false

/-- The emitted trace of the state inside an Except value. -/
def emittedOf : Except TdState TdState → List GwEvent
  | .ok s => s.emitted
  | .error s => s.emitted

/-- A trading state with the symbol Au9999 registered and nothing else. -/
def c2State : TdState :=
  { initialTdState with symbol_exchange_map := dictUpdate emptyDict "Au9999" Exchange.SGE }
/-- A trade payload for Au9999 whose system order number was never
registered by an order report. -/
def c2Trade : TradePayload :=
  { InstID := "Au9999", OrderNo := "77", MatchNo := "1", BuyOrSell := .KS_BUY,
    OffSetFlag := .KS_P_OPEN, Price := 100, Volume := 1, MatchTime := "10:00:00" }
/-- A cancel request whose order id was never registered. -/
def c3Req : CancelRequest :=
  { orderid := "1_1_1", symbol := "Au9999", exchange := .SGE }
/-- An order request with a translatable offset. -/
def c5Req : OrderRequest :=
  { symbol := "Au9999", exchange := .SGE, direction := .LONG, offset := .OPEN,
    price := 100, volume := 1 }
/-- An order request whose offset has no vendor translation. -/
def c5ReqBad : OrderRequest :=
  { symbol := "Au9999", exchange := .SGE, direction := .LONG, offset := .NONE,
    price := 100, volume := 1 }
/-- A trading state whose market map knows Au9999. -/
def c5State : TdState :=
  { initialTdState with symbol_market_map := dictUpdate emptyDict "Au9999" 1 }
/-- A trading state knowing only the symbol Au9999, with empty
identifier maps. -/
def c10State : TdState :=
  { initialTdState with symbol_exchange_map := dictUpdate emptyDict "Au9999" Exchange.SGE }
/-- First order report: local order id 1_1_1, vendor local number 7. -/
def c10p1 : OrderPayload :=
  { InstID := "Au9999", FrontID := 1, SessionID := 1, OrderRef := "1",
    LocalOrderNo := 7, OrderNo := "N1", BuyOrSell := .KS_BUY,
    OffsetFlag := .KS_P_OPEN, StatusCode := .KS_Entrust_In, Price := 100,
    Amount := 1, MatchQty := 0, EntrustTime := "10:00:00" }
/-- Second order report: the same local order id 1_1_1, but vendor local
number 8. -/
def c10p2 : OrderPayload := { c10p1 with LocalOrderNo := 8 }
/-- First buffered order report for Au9999, system number N1. -/
def c1p1 : OrderPayload :=
  { InstID := "Au9999", FrontID := 1, SessionID := 1, OrderRef := "1",
    LocalOrderNo := 11, OrderNo := "N1", BuyOrSell := .KS_BUY,
    OffsetFlag := .KS_P_OPEN, StatusCode := .KS_Entrust_In, Price := 100,
    Amount := 2, MatchQty := 0, EntrustTime := "09:00:01" }
/-- Buffered trade report for Au9999 referencing system number N1. -/
def c1q1 : TradePayload :=
  { InstID := "Au9999", OrderNo := "N1", MatchNo := "M1", BuyOrSell := .KS_BUY,
    OffSetFlag := .KS_P_OPEN, Price := 100, Volume := 1, MatchTime := "09:00:02" }
/-- Second buffered order report for Au9999, system number N2. -/
def c1p2 : OrderPayload :=
  { c1p1 with
    OrderRef := "2"
    LocalOrderNo := 12
    OrderNo := "N2"
    EntrustTime := "09:00:03" }
/-- The terminal catalog page declaring Au9999. -/
def c1cat : InstrumentPayload :=
  { InstID := "Au9999", Name := "gold", Unit := 1000, Tick := 1, MarketID := 1 }
/-- The buffered state after the three pre-load reports. -/
def c1cexBuffered : TdState :=
  { initialTdState with order_data := [c1p1, c1p2], trade_data := [c1q1] }

/-- Bind on a successful Except computation. -/
theorem except_ok_bind {ε α β : Type} (a : α) (f : α → Except ε β) :
    (Except.ok a >>= f : Except ε β) = f a := rfl

/-- Claim C4, counterexample: the vendor-to-normalized offset table sends
code 48 to Offset.OPEN, not to the CLOSE-equivalent offset the claim
asserts. -/
theorem claim_C4_counterexample :
    OFFSET_KSGOLD2VT KsOffsetCode.code48 = Offset.OPEN ∧ Offset.OPEN ≠ Offset.CLOSE := by
  decide

/-- Claim C4 (amended): code 48 aliases the normalized OPEN offset, next
to the primary vendor open code; the primary close code translates to
CLOSE; and the normalized-to-vendor table maps OPEN and CLOSE only to
their primary vendor codes (never to code 48) and nothing else is a key. -/
theorem claim_C4 :
    OFFSET_KSGOLD2VT KsOffsetCode.code48 = Offset.OPEN ∧
    OFFSET_KSGOLD2VT KsOffsetCode.KS_P_OPEN = Offset.OPEN ∧
    OFFSET_KSGOLD2VT KsOffsetCode.KS_P_OFFSET = Offset.CLOSE ∧
    OFFSET_VT2KSGOLD Offset.OPEN = some KsOffsetCode.KS_P_OPEN ∧
    OFFSET_VT2KSGOLD Offset.CLOSE = some KsOffsetCode.KS_P_OFFSET ∧
    OFFSET_VT2KSGOLD Offset.NONE = none ∧
    OFFSET_VT2KSGOLD Offset.CLOSETODAY = none ∧
    OFFSET_VT2KSGOLD Offset.CLOSEYESTERDAY = none := by
  decide

/-- Claim C6: adjust_price rewrites the MAX_FLOAT sentinel to 0 and
passes every other price through unchanged. -/
theorem claim_C6 :
    adjust_price MAX_FLOAT = 0 ∧ ∀ x : Rat, x ≠ MAX_FLOAT → adjust_price x = x := by
  constructor
  · simp [adjust_price]
  · intro x hx
    simp [adjust_price, hx]

/-- Witness for claim C6 at the concrete price 3. -/
theorem claim_C6_witness :
    adjust_price MAX_FLOAT = 0 ∧ ((3 : Rat) ≠ MAX_FLOAT ∧ adjust_price 3 = 3) :=
  ⟨claim_C6.1, by norm_num [MAX_FLOAT], claim_C6.2 3 (by norm_num [MAX_FLOAT])⟩

/-- One extra firing extends the invocation trace by the query whose turn
it is. -/
theorem expectedInvoked_succ (k : Nat) :
    expectedInvoked (k + 1) =
      expectedInvoked k ++
        [if k % 2 = 0 then QueryFn.query_account else QueryFn.query_position] := by
  simp [expectedInvoked, List.range_succ]

/-- Claim C7: from init_query, after n timer ticks the counter is n mod 2,
the rotation has flipped once per firing, and the invoked queries are
exactly one per two ticks, alternating account, position, account, ... -/
theorem claim_C7 (n : Nat) :
    process_timer_event^[n] init_query =
      { count := n % 2
        query_functions := expectedRotation (n / 2)
        invoked := expectedInvoked (n / 2) } := by
  induction n with
  | zero => simp [init_query, expectedRotation, expectedInvoked]
  | succ n ih =>
    rw [Function.iterate_succ_apply', ih]
    rcases Nat.mod_two_eq_zero_or_one n with h | h
    · have h1 : (n + 1) % 2 = 1 := by omega
      have h2 : (n + 1) / 2 = n / 2 := by omega
      simp [process_timer_event, h, h1, h2]
    · have h1 : (n + 1) % 2 = 0 := by omega
      have h2 : (n + 1) / 2 = n / 2 + 1 := by omega
      rcases Nat.mod_two_eq_zero_or_one (n / 2) with h3 | h3
      · have h4 : (n / 2 + 1) % 2 = 1 := by omega
        simp [process_timer_event, h, h1, h2, expectedRotation, h3, h4,
          expectedInvoked_succ]
      · have h4 : (n / 2 + 1) % 2 = 0 := by omega
        simp [process_timer_event, h, h1, h2, expectedRotation, h3, h4,
          expectedInvoked_succ]

/-- Claim C8, counterexample: the image of the status table is not a set
of 5 normalized states. -/
theorem claim_C8_counterexample :
    ¬ (Finset.univ.image STATUS_KSGOLD2VT).card = 5 := by
  decide

/-- Claim C8 (amended): the status table is total on exactly 9 vendor
codes; its image is exactly the six normalized states submitting,
not-traded, part-traded, all-traded, cancelled, rejected; and it is not
injective (waiting and queued-in both collapse to not-traded). -/
theorem claim_C8 :
    Fintype.card KsStatusCode = 9 ∧
    Finset.univ.image STATUS_KSGOLD2VT =
      {Status.SUBMITTING, Status.NOTTRADED, Status.PARTTRADED, Status.ALLTRADED,
       Status.CANCELLED, Status.REJECTED} ∧
    (Finset.univ.image STATUS_KSGOLD2VT).card = 6 ∧
    STATUS_KSGOLD2VT KsStatusCode.KS_Entrust_Waiting =
      STATUS_KSGOLD2VT KsStatusCode.KS_Entrust_In ∧
    KsStatusCode.KS_Entrust_Waiting ≠ KsStatusCode.KS_Entrust_In := by
  decide



/-- Claim C2, counterexample: with the symbol known and the system order
number unregistered, onRtnTrade raises (KeyError on sysid_orderid_map)
instead of deferring the trade; the trade is neither emitted nor
buffered. -/
theorem claim_C2_counterexample :
    (c2State.symbol_exchange_map c2Trade.InstID).isSome = true ∧
    c2State.sysid_orderid_map c2Trade.OrderNo = none ∧
    onRtnTrade c2State c2Trade = .error c2State := by
  refine ⟨rfl, rfl, rfl⟩

/-- Claim C2 (amended): a trade report with an unknown symbol is deferred
into the trade_data buffer, but a trade report whose symbol is known and
whose system order number is not in sysid_orderid_map makes onRtnTrade
raise a lookup error on the unchanged state — it is neither processed nor
deferred. -/
theorem claim_C2 (s : TdState) (q : TradePayload) :
    (s.symbol_exchange_map q.InstID = none →
      onRtnTrade s q = .ok { s with trade_data := s.trade_data ++ [q] }) ∧
    (∀ e : Exchange, s.symbol_exchange_map q.InstID = some e →
      s.sysid_orderid_map q.OrderNo = none →
      onRtnTrade s q = .error s) := by
  constructor
  · intro h
    simp [onRtnTrade, h]
  · intro e he hn
    simp [onRtnTrade, he, hn]

/-- Witness for claim C2: the unknown-symbol branch on the initial state
and the known-symbol unregistered-number branch on c2State. -/
theorem claim_C2_witness :
    (initialTdState.symbol_exchange_map c2Trade.InstID = none ∧
     onRtnTrade initialTdState c2Trade =
       .ok { initialTdState with
              trade_data := initialTdState.trade_data ++ [c2Trade] }) ∧
    (c2State.symbol_exchange_map c2Trade.InstID = some Exchange.SGE ∧
     c2State.sysid_orderid_map c2Trade.OrderNo = none ∧
     onRtnTrade c2State c2Trade = .error c2State) :=
  ⟨⟨rfl, (claim_C2 initialTdState c2Trade).1 rfl⟩,
   ⟨rfl, rfl, (claim_C2 c2State c2Trade).2 Exchange.SGE rfl rfl⟩⟩


/-- Claim C3, counterexample: cancel_order on an unknown orderid raises
(KeyError on orderid_localid_map) on the unchanged state, so the lookup
failure is propagated rather than handled; no reqOrderAction is issued
(the call trace of the carried state is still empty). -/
theorem claim_C3_counterexample :
    initialTdState.orderid_localid_map c3Req.orderid = none ∧
    cancel_order initialTdState c3Req = .error initialTdState ∧
    initialTdState.calls = [] := by
  refine ⟨rfl, rfl, rfl⟩

/-- Claim C3 (amended): whenever req.orderid has no entry in
orderid_localid_map, cancel_order raises the lookup error on the
unchanged state before reaching the vendor call, so reqOrderAction is
not invoked but the KeyError propagates to the caller. -/
theorem claim_C3 (s : TdState) (req : CancelRequest)
    (h : s.orderid_localid_map req.orderid = none) :
    cancel_order s req = .error s := by
  simp [cancel_order, h]

/-- Witness for claim C3 on the initial state. -/
theorem claim_C3_witness :
    initialTdState.orderid_localid_map c3Req.orderid = none ∧
    cancel_order initialTdState c3Req = .error initialTdState :=
  ⟨rfl, claim_C3 initialTdState c3Req rfl⟩




/-- Claim C5 (amended): an untranslatable offset is rejected locally with
no vendor call, no event, no order_ref increment and an empty-string
return; a translatable offset whose symbol is in symbol_market_map issues
exactly one reqOrderInsert and emits exactly one speculative order event
with the new local order id, returning its vt_orderid; a translatable
offset whose symbol is missing from symbol_market_map raises the lookup
error while building the vendor request — after the order_ref increment
but before any vendor call or event. -/
theorem claim_C5 (s : TdState) (req : OrderRequest) :
    (OFFSET_VT2KSGOLD req.offset = none → send_order s req = .ok (s, "")) ∧
    (∀ (c : KsOffsetCode) (mkt : Nat), OFFSET_VT2KSGOLD req.offset = some c →
      s.symbol_market_map req.symbol = some mkt →
      send_order s req = .ok
        ({ s with
            order_ref := s.order_ref + 1
            reqid := s.reqid + 1
            calls := s.calls ++ [VendorCall.reqOrderInsert
              { SeatID := s.seat_no
                ClientID := s.userid
                TradeCode := s.trade_code
                InstID := req.symbol
                BuyOrSell := DIRECTION_VT2KSGOLD req.direction
                OffsetFlag := some c
                Amount := req.volume.floor
                Price := req.price
                MarketID := mkt
                OrderRef := toString (s.order_ref + 1)
                SessionID := s.sessionid }]
            emitted := s.emitted ++ [GwEvent.onOrder (OrderRequest.create_order_data req
              (mkOrderId s.frontid s.sessionid (toString (s.order_ref + 1))))] },
         "KSGOLD." ++ mkOrderId s.frontid s.sessionid (toString (s.order_ref + 1)))) ∧
    (∀ c : KsOffsetCode, OFFSET_VT2KSGOLD req.offset = some c →
      s.symbol_market_map req.symbol = none →
      send_order s req = .error { s with order_ref := s.order_ref + 1 }) := by
  refine ⟨?_, ?_, ?_⟩
  · intro h
    simp [send_order, h]
  · intro c mkt hc hm
    simp [send_order, hc, hm]
  · intro c hc hm
    simp [send_order, hc, hm]

/-- Claim C5, counterexample: c5Req's offset is translatable, yet on a
state whose market map does not know the symbol, send_order raises the
lookup error (after bumping order_ref) — no vendor call is issued and no
order event is emitted, against the claim's unconditional second half. -/
theorem claim_C5_counterexample :
    OFFSET_VT2KSGOLD c5Req.offset = some KsOffsetCode.KS_P_OPEN ∧
    send_order initialTdState c5Req = .error { initialTdState with order_ref := 1 } ∧
    ({ initialTdState with order_ref := 1 } : TdState).emitted = [] ∧
    ({ initialTdState with order_ref := 1 } : TdState).calls = [] := by
  refine ⟨rfl, rfl, rfl, rfl⟩

/-- Witness for claim C5: the local-reject branch on c5ReqBad and the
successful branch on c5State with c5Req. -/
theorem claim_C5_witness :
    (OFFSET_VT2KSGOLD c5ReqBad.offset = none ∧
     send_order initialTdState c5ReqBad = .ok (initialTdState, "")) ∧
    (OFFSET_VT2KSGOLD c5Req.offset = some KsOffsetCode.KS_P_OPEN ∧
     c5State.symbol_market_map c5Req.symbol = some 1 ∧
     send_order c5State c5Req = .ok
       ({ c5State with
           order_ref := c5State.order_ref + 1
           reqid := c5State.reqid + 1
           calls := c5State.calls ++ [VendorCall.reqOrderInsert
             { SeatID := c5State.seat_no
               ClientID := c5State.userid
               TradeCode := c5State.trade_code
               InstID := c5Req.symbol
               BuyOrSell := DIRECTION_VT2KSGOLD c5Req.direction
               OffsetFlag := some KsOffsetCode.KS_P_OPEN
               Amount := c5Req.volume.floor
               Price := c5Req.price
               MarketID := 1
               OrderRef := toString (c5State.order_ref + 1)
               SessionID := c5State.sessionid }]
           emitted := c5State.emitted ++ [GwEvent.onOrder (OrderRequest.create_order_data c5Req
             (mkOrderId c5State.frontid c5State.sessionid (toString (c5State.order_ref + 1))))] },
        "KSGOLD." ++ mkOrderId c5State.frontid c5State.sessionid (toString (c5State.order_ref + 1)))) :=
  ⟨⟨rfl, (claim_C5 initialTdState c5ReqBad).1 rfl⟩,
   ⟨rfl, rfl, (claim_C5 c5State c5Req).2.1 KsOffsetCode.KS_P_OPEN 1 rfl rfl⟩⟩

/-- The instrument-query retry loop touches neither login_failed nor the
count of reqUserLogin calls. -/
theorem queryLoop_preserves (k : Nat) : ∀ s : TdState,
    (queryLoop s k).login_failed = s.login_failed ∧
    countUserLogin (queryLoop s k).calls = countUserLogin s.calls := by
  induction k with
  | zero => intro s; exact ⟨rfl, rfl⟩
  | succ k ih =>
    intro s
    have h := ih { s with reqid := s.reqid + 1,
                          calls := s.calls ++ [VendorCall.reqQryInstrument] }
    rw [queryLoop]
    refine ⟨h.1, h.2.trans ?_⟩
    simp [countUserLogin]

/-- Once login_failed is set, no login-related operation clears it or
issues a reqUserLogin. -/
theorem tdOpStep_preserves (s : TdState) (hf : s.login_failed = true) (op : TdOp) :
    (tdOpStep s op).login_failed = true ∧
    countUserLogin (tdOpStep s op).calls = countUserLogin s.calls := by
  cases op with
  | login => simp [tdOpStep, login, hf]
  | frontConnected => simp [tdOpStep, onFrontConnected, login, hf]
  | frontDisconnected => simp [tdOpStep, onFrontDisconnected, hf]
  | rspUserLogin d e r =>
    by_cases he : e = 0
    · have h := queryLoop_preserves (r + 1)
        { s with frontid := d.FrontID, sessionid := d.SessionID, seat_no := d.SeatNo,
                 trade_code := d.TradeCode, login_status := true }
      simp only [tdOpStep, onRspUserLogin, he, if_true]
      exact ⟨h.1.trans hf, h.2⟩
    · simp [tdOpStep, onRspUserLogin, he, hf]

/-- Running any sequence of login-related operations from a login-failed
state keeps the flag and adds no reqUserLogin call. -/
theorem runOps_preserves (ops : List TdOp) : ∀ s : TdState, s.login_failed = true →
    (runOps s ops).login_failed = true ∧
    countUserLogin (runOps s ops).calls = countUserLogin s.calls := by
  induction ops with
  | nil => intro s hf; exact ⟨hf, rfl⟩
  | cons op ops ih =>
    intro s hf
    have h1 := tdOpStep_preserves s hf op
    have h2 := ih (tdOpStep s op) h1.1
    exact ⟨h2.1, h2.2.trans h1.2⟩

/-- Claim C9: a login response with a nonzero ErrorID sets login_failed,
and from then on no sequence of login-related operations (direct login
calls, fresh front connections, disconnects, or further login responses)
ever issues another reqUserLogin or clears the flag. -/
theorem claim_C9 (s : TdState) (d : LoginData) (e r : Nat) (he : e ≠ 0)
    (ops : List TdOp) :
    (onRspUserLogin s d e r).login_failed = true ∧
    (runOps (onRspUserLogin s d e r) ops).login_failed = true ∧
    countUserLogin (runOps (onRspUserLogin s d e r) ops).calls =
      countUserLogin s.calls := by
  have hset : (onRspUserLogin s d e r).login_failed = true := by
    simp [onRspUserLogin, he]
  have hcalls : (onRspUserLogin s d e r).calls = s.calls := by
    simp [onRspUserLogin, he]
  have h := runOps_preserves ops (onRspUserLogin s d e r) hset
  exact ⟨hset, h.1, h.2.trans (by rw [hcalls])⟩

/-- Witness for claim C9: a rejected login on the initial state followed
by a direct login call and a fresh front connection. -/
theorem claim_C9_witness :
    (1 : Nat) ≠ 0 ∧
    ((onRspUserLogin initialTdState ⟨0, 0, 0, ""⟩ 1 0).login_failed = true ∧
     (runOps (onRspUserLogin initialTdState ⟨0, 0, 0, ""⟩ 1 0)
        [TdOp.login, TdOp.frontConnected]).login_failed = true ∧
     countUserLogin (runOps (onRspUserLogin initialTdState ⟨0, 0, 0, ""⟩ 1 0)
        [TdOp.login, TdOp.frontConnected]).calls =
       countUserLogin initialTdState.calls) :=
  ⟨one_ne_zero,
   claim_C9 initialTdState ⟨0, 0, 0, ""⟩ 1 0 one_ne_zero
     [TdOp.login, TdOp.frontConnected]⟩

/-- onRtnOrder never changes the symbol-to-exchange cache. -/
theorem onRtnOrder_symmap (s : TdState) (p : OrderPayload) :
    (onRtnOrder s p).symbol_exchange_map = s.symbol_exchange_map := by
  cases h : s.symbol_exchange_map p.InstID <;> simp [onRtnOrder, h]

/-- onRtnOrder on an unknown symbol only appends the payload to the
order buffer. -/
theorem onRtnOrder_unknown (s : TdState) (p : OrderPayload)
    (h : s.symbol_exchange_map p.InstID = none) :
    onRtnOrder s p = { s with order_data := s.order_data ++ [p] } := by
  simp [onRtnOrder, h]

/-- onRtnOrder on a known symbol updates both identifier maps, emits the
order event and registers the system order number, in one step. -/
theorem onRtnOrder_known (s : TdState) (p : OrderPayload) (e : Exchange)
    (h : s.symbol_exchange_map p.InstID = some e) :
    onRtnOrder s p = { s with
      orderid_localid_map :=
        dictUpdate s.orderid_localid_map (payloadOrderId p) p.LocalOrderNo
      localid_orderid_map :=
        dictUpdate s.localid_orderid_map p.LocalOrderNo (payloadOrderId p)
      emitted := s.emitted ++ [orderEvOf s.symbol_exchange_map p]
      sysid_orderid_map :=
        dictUpdate s.sysid_orderid_map p.OrderNo (payloadOrderId p) } := by
  simp [onRtnOrder, h, orderEvOf]

/-- processedPairs is driven by the symbol map of the starting state, so
a step leaves it unchanged for the remaining payloads. -/
theorem processedPairs_step (s : TdState) (p : OrderPayload)
    (ds : List OrderPayload) :
    processedPairs (onRtnOrder s p) ds = processedPairs s ds := by
  simp [processedPairs, onRtnOrder_symmap]

/-- An unknown-symbol payload contributes no processed pair. -/
theorem processedPairs_cons_unknown (s : TdState) (p : OrderPayload)
    (ds : List OrderPayload) (h : s.symbol_exchange_map p.InstID = none) :
    processedPairs s (p :: ds) = processedPairs s ds := by
  simp [processedPairs, List.filter_cons, h]

/-- A known-symbol payload contributes its identifier pair at the head. -/
theorem processedPairs_cons_known (s : TdState) (p : OrderPayload)
    (ds : List OrderPayload) (e : Exchange)
    (h : s.symbol_exchange_map p.InstID = some e) :
    processedPairs s (p :: ds) =
      (payloadOrderId p, p.LocalOrderNo) :: processedPairs s ds := by
  simp [processedPairs, List.filter_cons, h]

/-- A mapping-update step with a pair drawn from a two-way functional
list preserves MapsBounded. -/
theorem mapsBounded_step (L : List (String × Nat)) (s : TdState) (p : OrderPayload)
    (hL : TwoWayFunctional L) (hs : MapsBounded L s)
    (hp : (payloadOrderId p, p.LocalOrderNo) ∈ L) (e : Exchange)
    (he : s.symbol_exchange_map p.InstID = some e) :
    MapsBounded L (onRtnOrder s p) := by
  obtain ⟨h1, h2, h3⟩ := hs
  rw [onRtnOrder_known s p e he]
  refine ⟨?_, ?_, ?_⟩
  · intro oid lid h
    simp only [dictUpdate] at h
    by_cases ho : oid = payloadOrderId p
    · rw [if_pos ho] at h
      obtain rfl : p.LocalOrderNo = lid := Option.some.inj h
      rw [ho]
      exact hp
    · rw [if_neg ho] at h
      exact h1 oid lid h
  · intro oid lid h
    simp only [dictUpdate] at h
    by_cases hl : lid = p.LocalOrderNo
    · rw [if_pos hl] at h
      obtain rfl : payloadOrderId p = oid := Option.some.inj h
      rw [hl]
      exact hp
    · rw [if_neg hl] at h
      exact h2 oid lid h
  · intro oid lid
    simp only [dictUpdate]
    by_cases ho : oid = payloadOrderId p
    · by_cases hl : lid = p.LocalOrderNo
      · rw [if_pos ho, if_pos hl, ho, hl]
        simp
      · rw [if_pos ho, if_neg hl]
        constructor
        · intro h
          exact absurd (Option.some.inj h) (fun hh => hl hh.symm)
        · intro h
          have hmem := h2 oid lid h
          have h4 : lid = p.LocalOrderNo := (hL _ hmem _ hp).1 ho
          exact absurd h4 hl
    · by_cases hl : lid = p.LocalOrderNo
      · rw [if_neg ho, if_pos hl]
        constructor
        · intro h
          have hmem := h1 oid lid h
          have h4 : oid = payloadOrderId p := (hL _ hmem _ hp).2 hl
          exact absurd h4 ho
        · intro h
          exact absurd (Option.some.inj h) (fun hh => ho hh.symm)
      · rw [if_neg ho, if_neg hl]
        exact h3 oid lid

/-- A full run over payloads whose processed pairs sit inside a two-way
functional list preserves MapsBounded. -/
theorem mapsBounded_run (L : List (String × Nat)) (hL : TwoWayFunctional L) :
    ∀ (ds : List OrderPayload) (s : TdState), MapsBounded L s →
      (∀ pr ∈ processedPairs s ds, pr ∈ L) →
      MapsBounded L (runOrders s ds) := by
  intro ds
  induction ds with
  | nil => intro s hs _; exact hs
  | cons p ds ih =>
    intro s hs hsub
    show MapsBounded L (runOrders (onRtnOrder s p) ds)
    cases he : s.symbol_exchange_map p.InstID with
    | none =>
      apply ih
      · rw [onRtnOrder_unknown s p he]
        exact hs
      · intro pr hpr
        apply hsub
        rw [processedPairs_cons_unknown s p ds he]
        rw [processedPairs_step s p ds] at hpr
        exact hpr
    | some e =>
      apply ih
      · apply mapsBounded_step L s p hL hs _ e he
        apply hsub
        rw [processedPairs_cons_known s p ds e he]
        exact List.mem_cons_self _ _
      · intro pr hpr
        apply hsub
        rw [processedPairs_cons_known s p ds e he]
        rw [processedPairs_step s p ds] at hpr
        exact List.mem_cons_of_mem _ hpr

/-- Claim C10 (amended): a known-symbol order report writes the
(orderid, LocalOrderNo) pair into both identifier maps in the same step;
and starting from empty maps, if the pairs of the reports that reach the
mapping-update step are functional in both coordinates (each vendor local
order number with exactly one local order id and each local order id with
exactly one vendor local order number), then after the run the two maps
are mutual inverses. -/
theorem claim_C10 (s : TdState) :
    (∀ (p : OrderPayload) (e : Exchange), s.symbol_exchange_map p.InstID = some e →
      (onRtnOrder s p).orderid_localid_map (payloadOrderId p) = some p.LocalOrderNo ∧
      (onRtnOrder s p).localid_orderid_map p.LocalOrderNo = some (payloadOrderId p)) ∧
    (∀ ds : List OrderPayload,
      s.orderid_localid_map = emptyDict → s.localid_orderid_map = emptyDict →
      TwoWayFunctional (processedPairs s ds) →
      MutualInverse (runOrders s ds)) := by
  constructor
  · intro p e he
    rw [onRtnOrder_known s p e he]
    constructor <;> simp [dictUpdate]
  · intro ds h1 h2 hfun
    have hb : MapsBounded (processedPairs s ds) s := by
      refine ⟨?_, ?_, ?_⟩ <;> intro oid lid <;> simp [h1, h2, emptyDict]
    have h := mapsBounded_run (processedPairs s ds) hfun ds s hb (fun pr hpr => hpr)
    exact h.2.2




/-- Claim C10, counterexample: in the stream [c10p1, c10p2] every vendor
local order number (7 and 8) is paired with exactly one local order id,
exactly as the claim's proviso demands, yet after the run the maps are
not mutual inverses: localid_orderid_map still sends 7 to 1_1_1 while
orderid_localid_map sends 1_1_1 to 8. -/
theorem claim_C10_counterexample :
    (∀ a ∈ processedPairs c10State [c10p1, c10p2],
       ∀ b ∈ processedPairs c10State [c10p1, c10p2], a.2 = b.2 → a.1 = b.1) ∧
    ¬ MutualInverse (runOrders c10State [c10p1, c10p2]) := by
  constructor
  · decide
  · intro h
    have h7 : (runOrders c10State [c10p1, c10p2]).localid_orderid_map 7 =
        some "1_1_1" := by decide
    have h8 : (runOrders c10State [c10p1, c10p2]).orderid_localid_map "1_1_1" =
        some 8 := by decide
    have h9 := (h "1_1_1" 7).mpr h7
    rw [h9] at h8
    simp at h8

/-- Witness for claim C10: the one-step fact at c10p1 on c10State, and
the run over the single-payload stream [c10p1], whose processed pairs
are two-way functional. -/
theorem claim_C10_witness :
    (c10State.symbol_exchange_map c10p1.InstID = some Exchange.SGE ∧
     (onRtnOrder c10State c10p1).orderid_localid_map (payloadOrderId c10p1) =
       some c10p1.LocalOrderNo ∧
     (onRtnOrder c10State c10p1).localid_orderid_map c10p1.LocalOrderNo =
       some (payloadOrderId c10p1)) ∧
    (c10State.orderid_localid_map = emptyDict ∧
     c10State.localid_orderid_map = emptyDict ∧
     TwoWayFunctional (processedPairs c10State [c10p1]) ∧
     MutualInverse (runOrders c10State [c10p1])) :=
  ⟨⟨rfl, (claim_C10 c10State).1 c10p1 Exchange.SGE rfl⟩,
   ⟨rfl, rfl, by unfold TwoWayFunctional; decide,
    (claim_C10 c10State).2 [c10p1] rfl rfl (by unfold TwoWayFunctional; decide)⟩⟩

/-- Unfolding deliverAll on a cons. -/
theorem deliverAll_cons (s : TdState) (m : RtnMsg) (ms : List RtnMsg) :
    deliverAll s (m :: ms) = deliverRtn s m >>= fun s' => deliverAll s' ms := rfl

/-- onRtnTrade on an unknown symbol only appends the payload to the
trade buffer. -/
theorem onRtnTrade_unknown (s : TdState) (q : TradePayload)
    (h : s.symbol_exchange_map q.InstID = none) :
    onRtnTrade s q = .ok { s with trade_data := s.trade_data ++ [q] } := by
  simp [onRtnTrade, h]

/-- onRtnTrade on a known symbol with a registered system order number
only emits the trade event. -/
theorem onRtnTrade_known (s : TdState) (q : TradePayload) (e : Exchange) (oid : String)
    (he : s.symbol_exchange_map q.InstID = some e)
    (ho : s.sysid_orderid_map q.OrderNo = some oid) :
    onRtnTrade s q = .ok { s with emitted := s.emitted ++
      [tradeEvOf s.symbol_exchange_map s.sysid_orderid_map q] } := by
  simp [onRtnTrade, he, ho, tradeEvOf]

/-- While no delivered report's symbol is known, every report is appended
to its pending buffer in arrival order and nothing else changes. -/
theorem deliverAll_buffered : ∀ (ms : List RtnMsg) (s : TdState),
    (∀ m ∈ ms, s.symbol_exchange_map (msgSymbol m) = none) →
    deliverAll s ms = .ok { s with
      order_data := s.order_data ++ ordersOf ms
      trade_data := s.trade_data ++ tradesOf ms } := by
  intro ms
  induction ms with
  | nil =>
    intro s h
    simp only [deliverAll, List.foldlM_nil, ordersOf, tradesOf, List.filterMap_nil,
      List.append_nil]
    rfl
  | cons m ms ih =>
    intro s h
    have hm := h m (List.mem_cons_self m ms)
    cases m with
    | ord p =>
      have ihp := ih { s with order_data := s.order_data ++ [p] }
        (fun m' hm' => h m' (List.mem_cons_of_mem _ hm'))
      rw [deliverAll_cons,
        show deliverRtn s (RtnMsg.ord p) = Except.ok (onRtnOrder s p) from rfl,
        except_ok_bind, onRtnOrder_unknown s p hm, ihp]
      simp [ordersOf, tradesOf]
    | trd q =>
      have ihq := ih { s with trade_data := s.trade_data ++ [q] }
        (fun m' hm' => h m' (List.mem_cons_of_mem _ hm'))
      rw [deliverAll_cons,
        show deliverRtn s (RtnMsg.trd q) = onRtnTrade s q from rfl,
        onRtnTrade_unknown s q hm, except_ok_bind, ihq]
      simp [ordersOf, tradesOf]

/-- Registering a catalog page list touches only the four symbol caches
and the emitted contract events. -/
theorem registerAll_fields : ∀ (cs : List InstrumentPayload) (s : TdState),
    (registerAll s cs).symbol_exchange_map = catalogMap s.symbol_exchange_map cs ∧
    (registerAll s cs).order_data = s.order_data ∧
    (registerAll s cs).trade_data = s.trade_data ∧
    (registerAll s cs).sysid_orderid_map = s.sysid_orderid_map ∧
    (registerAll s cs).emitted = s.emitted ++ cs.map contractEvOf := by
  intro cs
  induction cs with
  | nil => intro s; simp [registerAll, catalogMap]
  | cons c cs ih =>
    intro s
    have h := ih (registerContract s c)
    refine ⟨h.1, h.2.1, h.2.2.1, h.2.2.2.1, ?_⟩
    show (registerAll (registerContract s c) cs).emitted =
      s.emitted ++ (c :: cs).map contractEvOf
    rw [h.2.2.2.2]
    show (s.emitted ++ [contractEvOf c]) ++ cs.map contractEvOf = _
    simp

/-- A run of non-terminal catalog pages never fails and is exactly the
registration fold. -/
theorem qryFold_false : ∀ (cs : List InstrumentPayload) (s : TdState),
    cs.foldlM (fun s' c => onRspQryInstrument s' c false) s = .ok (registerAll s cs) := by
  intro cs
  induction cs with
  | nil => intro s; rfl
  | cons c cs ih =>
    intro s
    rw [List.foldlM_cons,
      show onRspQryInstrument s c false = Except.ok (registerContract s c) from rfl,
      except_ok_bind]
    exact ih (registerContract s c)

/-- Order payloads of the report stream come from order reports. -/
theorem mem_ordersOf {p : OrderPayload} {ms : List RtnMsg} (h : p ∈ ordersOf ms) :
    RtnMsg.ord p ∈ ms := by
  obtain ⟨m, hm, he⟩ := List.mem_filterMap.mp h
  cases m with
  | ord p' =>
    obtain rfl : p' = p := Option.some.inj he
    exact hm
  | trd q => exact Option.noConfusion he

/-- Trade payloads of the report stream come from trade reports. -/
theorem mem_tradesOf {q : TradePayload} {ms : List RtnMsg} (h : q ∈ tradesOf ms) :
    RtnMsg.trd q ∈ ms := by
  obtain ⟨m, hm, he⟩ := List.mem_filterMap.mp h
  cases m with
  | ord p => exact Option.noConfusion he
  | trd q' =>
    obtain rfl : q' = q := Option.some.inj he
    exact hm

/-- Replaying order payloads whose symbols are all known extends the
identifier maps by the payload pairs, registers the system order numbers,
and emits one order event per payload in list order; buffers, symbol
caches and everything else are untouched. -/
theorem replayOrders_eq : ∀ (ps : List OrderPayload) (s : TdState),
    (∀ p ∈ ps, (s.symbol_exchange_map p.InstID).isSome = true) →
    ps.foldl onRtnOrder s = { s with
      orderid_localid_map := olExtend s.orderid_localid_map ps
      localid_orderid_map := loExtend s.localid_orderid_map ps
      sysid_orderid_map := sysExtend s.sysid_orderid_map ps
      emitted := s.emitted ++ ps.map (orderEvOf s.symbol_exchange_map) } := by
  intro ps
  induction ps with
  | nil => intro s h; simp [olExtend, loExtend, sysExtend]
  | cons p ps ih =>
    intro s h
    obtain ⟨e, he⟩ := Option.isSome_iff_exists.mp (h p (List.mem_cons_self p ps))
    have ihp := ih { s with
        orderid_localid_map :=
          dictUpdate s.orderid_localid_map (payloadOrderId p) p.LocalOrderNo
        localid_orderid_map :=
          dictUpdate s.localid_orderid_map p.LocalOrderNo (payloadOrderId p)
        emitted := s.emitted ++ [orderEvOf s.symbol_exchange_map p]
        sysid_orderid_map :=
          dictUpdate s.sysid_orderid_map p.OrderNo (payloadOrderId p) }
      (fun p' hp' => h p' (List.mem_cons_of_mem _ hp'))
    rw [List.foldl_cons, onRtnOrder_known s p e he, ihp]
    simp [olExtend, loExtend, sysExtend]

/-- Replaying trade payloads whose symbols are known and whose system
order numbers all resolve emits one trade event per payload in list
order and changes nothing else. -/
theorem replayTrades_eq : ∀ (qs : List TradePayload) (s : TdState),
    (∀ q ∈ qs, (s.symbol_exchange_map q.InstID).isSome = true) →
    (∀ q ∈ qs, (s.sysid_orderid_map q.OrderNo).isSome = true) →
    qs.foldlM onRtnTrade s = .ok { s with
      emitted := s.emitted ++
        qs.map (tradeEvOf s.symbol_exchange_map s.sysid_orderid_map) } := by
  intro qs
  induction qs with
  | nil =>
    intro s h1 h2
    simp only [List.foldlM_nil, List.map_nil, List.append_nil]
    rfl
  | cons q qs ih =>
    intro s h1 h2
    obtain ⟨e, he⟩ := Option.isSome_iff_exists.mp (h1 q (List.mem_cons_self q qs))
    obtain ⟨oid, ho⟩ := Option.isSome_iff_exists.mp (h2 q (List.mem_cons_self q qs))
    have ihq := ih { s with emitted := s.emitted ++
        [tradeEvOf s.symbol_exchange_map s.sysid_orderid_map q] }
      (fun q' hq' => h1 q' (List.mem_cons_of_mem _ hq'))
      (fun q' hq' => h2 q' (List.mem_cons_of_mem _ hq'))
    rw [List.foldlM_cons, onRtnTrade_known s q e oid he ho, except_ok_bind, ihq]
    simp

/-- Map on a successful Except computation. -/
theorem except_map_ok {ε α β : Type} (a : α) (f : α → β) :
    (Except.ok a : Except ε α).map f = .ok (f a) := rfl

/-- Registering one more catalog page extends the catalog map by one key. -/
theorem catalogMap_snoc (exm : String → Option Exchange)
    (cs : List InstrumentPayload) (c : InstrumentPayload) :
    catalogMap exm (cs ++ [c]) =
      dictUpdate (catalogMap exm cs) c.InstID Exchange.SGE := by
  simp [catalogMap, List.foldl_append]

/-- The terminal drain, when every buffered order symbol is known and
every buffered trade resolves against the system numbers registered by
the buffered orders: both buffers are cleared, the identifier maps absorb
the order pairs, and one event per buffered payload is emitted — all
buffered orders first, in buffer order, then all buffered trades, in
buffer order. -/
theorem drainBuffers_eq (t : TdState)
    (h1 : ∀ p ∈ t.order_data, (t.symbol_exchange_map p.InstID).isSome = true)
    (h2 : ∀ q ∈ t.trade_data, (t.symbol_exchange_map q.InstID).isSome = true)
    (h3 : ∀ q ∈ t.trade_data,
      (sysExtend t.sysid_orderid_map t.order_data q.OrderNo).isSome = true) :
    drainBuffers t = .ok { t with
      order_data := []
      trade_data := []
      orderid_localid_map := olExtend t.orderid_localid_map t.order_data
      localid_orderid_map := loExtend t.localid_orderid_map t.order_data
      sysid_orderid_map := sysExtend t.sysid_orderid_map t.order_data
      emitted := t.emitted ++ t.order_data.map (orderEvOf t.symbol_exchange_map)
        ++ t.trade_data.map (tradeEvOf t.symbol_exchange_map
            (sysExtend t.sysid_orderid_map t.order_data)) } := by
  have hord := replayOrders_eq t.order_data t h1
  simp only [drainBuffers, hord]
  rw [replayTrades_eq t.trade_data]
  · simp [except_map_ok, List.append_assoc]
  · exact h2
  · exact h3

/-- Immediate processing: when the reference stream specEvents succeeds
on the state's maps, delivery succeeds, emits exactly those events in
arrival order, and leaves both pending buffers untouched. -/
theorem deliverAll_spec : ∀ (ms : List RtnMsg) (s : TdState) (evs : List GwEvent),
    specEvents s.symbol_exchange_map s.sysid_orderid_map ms = some evs →
    ∃ s' : TdState, deliverAll s ms = .ok s' ∧
      s'.emitted = s.emitted ++ evs ∧
      s'.order_data = s.order_data ∧
      s'.trade_data = s.trade_data := by
  intro ms
  induction ms with
  | nil =>
    intro s evs h
    simp only [specEvents, Option.some.injEq] at h
    refine ⟨s, rfl, ?_, rfl, rfl⟩
    rw [← h]
    simp
  | cons m ms ih =>
    intro s evs h
    cases m with
    | ord p =>
      cases he : s.symbol_exchange_map p.InstID with
      | none =>
        simp only [specEvents, he] at h
        exact Option.noConfusion h
      | some e =>
        simp only [specEvents, he, Option.map_eq_some'] at h
        obtain ⟨evs', hrec, hevs⟩ := h
        obtain ⟨s', hd, hem, hod, htd⟩ := ih { s with
            orderid_localid_map :=
              dictUpdate s.orderid_localid_map (payloadOrderId p) p.LocalOrderNo
            localid_orderid_map :=
              dictUpdate s.localid_orderid_map p.LocalOrderNo (payloadOrderId p)
            emitted := s.emitted ++ [orderEvOf s.symbol_exchange_map p]
            sysid_orderid_map :=
              dictUpdate s.sysid_orderid_map p.OrderNo (payloadOrderId p) }
          evs' hrec
        refine ⟨s', ?_, ?_, hod, htd⟩
        · rw [deliverAll_cons,
            show deliverRtn s (RtnMsg.ord p) = Except.ok (onRtnOrder s p) from rfl,
            except_ok_bind, onRtnOrder_known s p e he]
          exact hd
        · rw [hem, ← hevs]
          simp
    | trd q =>
      cases he : s.symbol_exchange_map q.InstID with
      | none =>
        simp only [specEvents, he] at h
        exact Option.noConfusion h
      | some e =>
        cases ho : s.sysid_orderid_map q.OrderNo with
        | none =>
          simp only [specEvents, he, ho] at h
          exact Option.noConfusion h
        | some oid =>
          simp only [specEvents, he, ho, Option.map_eq_some'] at h
          obtain ⟨evs', hrec, hevs⟩ := h
          obtain ⟨s', hd, hem, hod, htd⟩ := ih { s with
              emitted := s.emitted ++
                [tradeEvOf s.symbol_exchange_map s.sysid_orderid_map q] }
            evs' hrec
          refine ⟨s', ?_, ?_, hod, htd⟩
          · rw [deliverAll_cons,
              show deliverRtn s (RtnMsg.trd q) = onRtnTrade s q from rfl,
              onRtnTrade_known s q e oid he ho, except_ok_bind]
            exact hd
          · rw [hem, ← hevs]
            simp

/-- Claim C1 (amended): reports arriving while their symbol is unknown
are appended to order_data / trade_data in arrival order with no event
emitted; when the terminal instrument response arrives — provided the
catalog covers every buffered symbol and every buffered trade's system
number resolves after the buffered orders are registered — every buffered
payload is replayed exactly once through the normal handlers and both
buffers are cleared, but all buffered orders are replayed first, in their
arrival order, and then all buffered trades, in their arrival order (the
cross-stream arrival interleaving is not preserved); afterwards post-load
reports are processed immediately, appending their events in arrival
order.  The final emitted sequence is the contract events, then the
buffered orders, then the buffered trades, then the post-load events. -/
theorem claim_C1 (s0 : TdState) (pre : List RtnMsg) (cs : List InstrumentPayload)
    (c : InstrumentPayload) (post : List RtnMsg) (postEvs : List GwEvent)
    (hod : s0.order_data = []) (htd : s0.trade_data = [])
    (hpre : ∀ m ∈ pre, s0.symbol_exchange_map (msgSymbol m) = none)
    (hcov : ∀ m ∈ pre,
      (catalogMap s0.symbol_exchange_map (cs ++ [c]) (msgSymbol m)).isSome = true)
    (hsys : ∀ q ∈ tradesOf pre,
      (sysExtend s0.sysid_orderid_map (ordersOf pre) q.OrderNo).isSome = true)
    (hpost : specEvents (catalogMap s0.symbol_exchange_map (cs ++ [c]))
      (sysExtend s0.sysid_orderid_map (ordersOf pre)) post = some postEvs) :
    ∃ s1 s3 s4 : TdState,
      deliverAll s0 pre = .ok s1 ∧
      s1.order_data = ordersOf pre ∧
      s1.trade_data = tradesOf pre ∧
      s1.emitted = s0.emitted ∧
      cs.foldlM (fun s' c' => onRspQryInstrument s' c' false) s1 =
        .ok (registerAll s1 cs) ∧
      onRspQryInstrument (registerAll s1 cs) c true = .ok s3 ∧
      s3.order_data = [] ∧
      s3.trade_data = [] ∧
      s3.emitted = s0.emitted ++ (cs ++ [c]).map contractEvOf
        ++ (ordersOf pre).map
            (orderEvOf (catalogMap s0.symbol_exchange_map (cs ++ [c])))
        ++ (tradesOf pre).map
            (tradeEvOf (catalogMap s0.symbol_exchange_map (cs ++ [c]))
              (sysExtend s0.sysid_orderid_map (ordersOf pre))) ∧
      deliverAll s3 post = .ok s4 ∧
      s4.emitted = s3.emitted ++ postEvs := by
  have h1 := deliverAll_buffered pre s0 hpre
  rw [hod, htd] at h1
  simp only [List.nil_append] at h1
  obtain ⟨S1, hS1⟩ : ∃ S1 : TdState,
      ({ s0 with order_data := ordersOf pre, trade_data := tradesOf pre } : TdState)
        = S1 := ⟨_, rfl⟩
  rw [hS1] at h1
  have hS1od : S1.order_data = ordersOf pre := by rw [← hS1]
  have hS1td : S1.trade_data = tradesOf pre := by rw [← hS1]
  have hS1em : S1.emitted = s0.emitted := by rw [← hS1]
  have hS1sem : S1.symbol_exchange_map = s0.symbol_exchange_map := by rw [← hS1]
  have hS1sys : S1.sysid_orderid_map = s0.sysid_orderid_map := by rw [← hS1]
  have hreg := registerAll_fields cs S1
  obtain ⟨t, ht⟩ : ∃ t : TdState, registerContract (registerAll S1 cs) c = t :=
    ⟨_, rfl⟩
  have htod : t.order_data = ordersOf pre := by
    rw [← ht]
    show (registerAll S1 cs).order_data = _
    rw [hreg.2.1, hS1od]
  have httd : t.trade_data = tradesOf pre := by
    rw [← ht]
    show (registerAll S1 cs).trade_data = _
    rw [hreg.2.2.1, hS1td]
  have htsem : t.symbol_exchange_map
      = catalogMap s0.symbol_exchange_map (cs ++ [c]) := by
    rw [← ht, catalogMap_snoc]
    show dictUpdate (registerAll S1 cs).symbol_exchange_map c.InstID Exchange.SGE = _
    rw [hreg.1, hS1sem]
  have htsys : t.sysid_orderid_map = s0.sysid_orderid_map := by
    rw [← ht]
    show (registerAll S1 cs).sysid_orderid_map = _
    rw [hreg.2.2.2.1, hS1sys]
  have htem : t.emitted = s0.emitted ++ (cs ++ [c]).map contractEvOf := by
    rw [← ht]
    show (registerAll S1 cs).emitted ++ [contractEvOf c] = _
    rw [hreg.2.2.2.2, hS1em]
    simp
  have hterm : onRspQryInstrument (registerAll S1 cs) c true = drainBuffers t := by
    rw [← ht]
    rfl
  have hd1 : ∀ p ∈ t.order_data, (t.symbol_exchange_map p.InstID).isSome = true := by
    intro p hp
    rw [htsem]
    exact hcov (RtnMsg.ord p) (mem_ordersOf (htod ▸ hp))
  have hd2 : ∀ q ∈ t.trade_data, (t.symbol_exchange_map q.InstID).isSome = true := by
    intro q hq
    rw [htsem]
    exact hcov (RtnMsg.trd q) (mem_tradesOf (httd ▸ hq))
  have hd3 : ∀ q ∈ t.trade_data,
      (sysExtend t.sysid_orderid_map t.order_data q.OrderNo).isSome = true := by
    intro q hq
    rw [htsys, htod]
    exact hsys q (httd ▸ hq)
  obtain ⟨D, hD, hDod, hDtd, hDem, hDsem, hDsys⟩ : ∃ D : TdState,
      drainBuffers t = .ok D ∧ D.order_data = [] ∧ D.trade_data = [] ∧
      D.emitted = t.emitted ++ t.order_data.map (orderEvOf t.symbol_exchange_map)
        ++ t.trade_data.map (tradeEvOf t.symbol_exchange_map
            (sysExtend t.sysid_orderid_map t.order_data)) ∧
      D.symbol_exchange_map = t.symbol_exchange_map ∧
      D.sysid_orderid_map = sysExtend t.sysid_orderid_map t.order_data :=
    ⟨_, drainBuffers_eq t hd1 hd2 hd3, rfl, rfl, rfl, rfl, rfl⟩
  have hpost' : specEvents D.symbol_exchange_map D.sysid_orderid_map post
      = some postEvs := by
    rw [hDsem, hDsys, htsem, htsys, htod]
    exact hpost
  obtain ⟨s4, hds4, hem4, h4od, h4td⟩ := deliverAll_spec post D postEvs hpost'
  refine ⟨S1, D, s4, h1, hS1od, hS1td, hS1em, qryFold_false cs S1,
    hterm.trans hD, hDod, hDtd, ?_, hds4, hem4⟩
  rw [hDem, htem, htod, httd, htsem, htsys]






/-- Claim C1, counterexample: the reports arrive in the order
(order c1p1, trade c1q1, order c1p2) and are buffered in that order, but
the replay on the terminal catalog page processes the order buffer first
and only then the trade buffer, so the emitted order/trade sequence is
(c1p1, c1p2, c1q1) — not the arrival order (c1p1, c1q1, c1p2): the final
processed event sequence does not equal the buffered events in arrival
order. -/
theorem claim_C1_counterexample :
    deliverAll initialTdState [RtnMsg.ord c1p1, RtnMsg.trd c1q1, RtnMsg.ord c1p2]
      = .ok c1cexBuffered ∧
    exceptIsOk (onRspQryInstrument c1cexBuffered c1cat true) = true ∧
    (emittedOf (onRspQryInstrument c1cexBuffered c1cat true)).filter notOnContract =
      [orderEvOf (catalogMap initialTdState.symbol_exchange_map [c1cat]) c1p1,
       orderEvOf (catalogMap initialTdState.symbol_exchange_map [c1cat]) c1p2,
       tradeEvOf (catalogMap initialTdState.symbol_exchange_map [c1cat])
         (sysExtend initialTdState.sysid_orderid_map [c1p1, c1p2]) c1q1] ∧
    (emittedOf (onRspQryInstrument c1cexBuffered c1cat true)).filter notOnContract ≠
      [orderEvOf (catalogMap initialTdState.symbol_exchange_map [c1cat]) c1p1,
       tradeEvOf (catalogMap initialTdState.symbol_exchange_map [c1cat])
         (sysExtend initialTdState.sysid_orderid_map [c1p1, c1p2]) c1q1,
       orderEvOf (catalogMap initialTdState.symbol_exchange_map [c1cat]) c1p2] := by
  refine ⟨rfl, rfl, by decide, by decide⟩

/-- Witness for claim C1: two buffered reports (order c1p1 then trade
c1q1), a single terminal catalog page c1cat covering them, and no
post-load reports. -/
theorem claim_C1_witness :
    (initialTdState.order_data = [] ∧
     initialTdState.trade_data = [] ∧
     (∀ m ∈ [RtnMsg.ord c1p1, RtnMsg.trd c1q1],
        initialTdState.symbol_exchange_map (msgSymbol m) = none) ∧
     (∀ m ∈ [RtnMsg.ord c1p1, RtnMsg.trd c1q1],
        (catalogMap initialTdState.symbol_exchange_map ([] ++ [c1cat])
          (msgSymbol m)).isSome = true) ∧
     (∀ q ∈ tradesOf [RtnMsg.ord c1p1, RtnMsg.trd c1q1],
        (sysExtend initialTdState.sysid_orderid_map
          (ordersOf [RtnMsg.ord c1p1, RtnMsg.trd c1q1]) q.OrderNo).isSome = true) ∧
     specEvents (catalogMap initialTdState.symbol_exchange_map ([] ++ [c1cat]))
       (sysExtend initialTdState.sysid_orderid_map
         (ordersOf [RtnMsg.ord c1p1, RtnMsg.trd c1q1])) [] = some []) ∧
    (∃ s1 s3 s4 : TdState,
      deliverAll initialTdState [RtnMsg.ord c1p1, RtnMsg.trd c1q1] = .ok s1 ∧
      s1.order_data = ordersOf [RtnMsg.ord c1p1, RtnMsg.trd c1q1] ∧
      s1.trade_data = tradesOf [RtnMsg.ord c1p1, RtnMsg.trd c1q1] ∧
      s1.emitted = initialTdState.emitted ∧
      ([] : List InstrumentPayload).foldlM
        (fun s' c' => onRspQryInstrument s' c' false) s1 = .ok (registerAll s1 []) ∧
      onRspQryInstrument (registerAll s1 []) c1cat true = .ok s3 ∧
      s3.order_data = [] ∧
      s3.trade_data = [] ∧
      s3.emitted = initialTdState.emitted ++ ([] ++ [c1cat]).map contractEvOf
        ++ (ordersOf [RtnMsg.ord c1p1, RtnMsg.trd c1q1]).map
            (orderEvOf (catalogMap initialTdState.symbol_exchange_map ([] ++ [c1cat])))
        ++ (tradesOf [RtnMsg.ord c1p1, RtnMsg.trd c1q1]).map
            (tradeEvOf (catalogMap initialTdState.symbol_exchange_map ([] ++ [c1cat]))
              (sysExtend initialTdState.sysid_orderid_map
                (ordersOf [RtnMsg.ord c1p1, RtnMsg.trd c1q1]))) ∧
      deliverAll s3 [] = .ok s4 ∧
      s4.emitted = s3.emitted ++ []) :=
  ⟨⟨rfl, rfl, by decide, by decide, by decide, rfl⟩,
   claim_C1 initialTdState [RtnMsg.ord c1p1, RtnMsg.trd c1q1] [] c1cat [] []
     rfl rfl (by decide) (by decide) (by decide) rfl⟩
